import Mathlib

/-!
Shallow embedding of `itkVectorThresholdSegmentationLevelSetFunction.h`
(ITK, Code/Algorithms).  Scalars (`double` in the source) are modelled by
rationals for the stored state and by real numbers for results that pass
through a square root.  The class state is modelled by an explicit record,
member functions by state-passing functions.
-/

namespace itk

/-- Error kinds of the component, as the specification classifies them:
a configuration error for dimension mismatches, a numerical error for a
singular covariance. -/
inductive ItkError where
  | configurationError : ItkError
  | numericalError : ItkError
  deriving DecidableEq, Repr

/-- View a list of rows as a square matrix of the given size; entries that
fall outside the lists default to zero (the evaluation only uses this view
after checking that all rows have length `n`). -/
def toMatrix (n : Nat) (rows : List (List ℚ)) : Matrix (Fin n) (Fin n) ℚ :=
  fun i j => ((rows.getD i.val []).getD j.val 0)

/-- View a list as an `n`-dimensional vector, defaulting to zero outside. -/
def toVec (n : Nat) (v : List ℚ) : Fin n → ℚ :=
  fun i => v.getD i.val 0

/-- State of `itk::Statistics::MahalanobisDistanceMembershipFunction`:
a mean vector and a covariance matrix, both dynamically sized (vnl vectors
and matrices in the source). -/
structure MahalanobisDistanceMembershipFunction where
  m_Mean : List ℚ
  m_Covariance : List (List ℚ)
  deriving DecidableEq, Repr

namespace MahalanobisDistanceMembershipFunction

/-- `SetMean`: replaces the mean wholesale (no validation). -/
def SetMean (mean : List ℚ) (f : MahalanobisDistanceMembershipFunction) :
    MahalanobisDistanceMembershipFunction :=
  { f with m_Mean := mean }

/-- `GetMean`. -/
def GetMean (f : MahalanobisDistanceMembershipFunction) : List ℚ :=
  f.m_Mean

/-- `SetCovariance`: replaces the covariance wholesale (no validation). -/
def SetCovariance (cov : List (List ℚ))
    (f : MahalanobisDistanceMembershipFunction) :
    MahalanobisDistanceMembershipFunction :=
  { f with m_Covariance := cov }

/-- `GetCovariance`. -/
def GetCovariance (f : MahalanobisDistanceMembershipFunction) :
    List (List ℚ) :=
  f.m_Covariance

/-- Modelled from the spec: the squared Mahalanobis distance
`(x - mean)ᵗ · Σ⁻¹ · (x - mean)` computed by the membership function,
whose implementation (`itkMahalanobisDistanceMembershipFunction.h`) is not
part of the excerpt.  Per the spec it fails with a `NumericalError` when
the covariance is singular and with a `ConfigurationError` when the
dimensions of the input vector, the mean and the covariance disagree.
The inverse is the adjugate divided by the determinant. -/
def EvaluateSq (f : MahalanobisDistanceMembershipFunction) (x : List ℚ) :
    Except ItkError ℚ :=
  let n := f.m_Mean.length
  if x.length = n ∧ f.m_Covariance.length = n ∧
      (∀ row ∈ f.m_Covariance, row.length = n) then
    let sigma := toMatrix n f.m_Covariance
    if sigma.det = 0 then
      .error .numericalError
    else
      let d : Fin n → ℚ := fun i => toVec n x i - toVec n f.m_Mean i
      .ok (Matrix.dotProduct d (Matrix.mulVec (sigma.det⁻¹ • sigma.adjugate) d))
  else
    .error .configurationError

/-- Modelled from the spec: `Evaluate` returns the Mahalanobis distance
`sqrt((x - mean)ᵗ · Σ⁻¹ · (x - mean))`, propagating the error cases of
the squared form. -/
noncomputable def Evaluate (f : MahalanobisDistanceMembershipFunction)
    (x : List ℚ) : Except ItkError ℝ :=
  (f.EvaluateSq x).map fun q => Real.sqrt (q : ℝ)

end MahalanobisDistanceMembershipFunction

/-- The static geometry of the feature image type parameter
`TFeatureImageType`: its spatial dimension (`GetImageDimension()`) and the
number of components of its per-pixel vectors (the channel count of
`FeatureScalarType`). -/
structure FeatureImageTraits where
  imageDimension : Nat
  channelCount : Nat
  deriving DecidableEq, Repr

/-- A concrete feature image: a finite domain of pixels, each holding a
vector of channel values. -/
structure FeatureImage where
  size : Nat
  pixel : Nat → List ℚ

/-- State of `itk::VectorThresholdSegmentationLevelSetFunction`: the
Mahalanobis membership function and the threshold declared in the excerpt,
together with the weight and radius state inherited from the level-set
function base classes (modelled from the spec, which specifies the base
class only through its `setAdvectionWeight` / `setPropagationWeight` /
`setCurvatureWeight` / `initialize(radius)` surface). -/
structure VectorThresholdSegmentationLevelSetFunction where
  m_Mahalanobis : MahalanobisDistanceMembershipFunction
  m_Threshold : ℚ
  m_AdvectionWeight : ℚ
  m_PropagationWeight : ℚ
  m_CurvatureWeight : ℚ
  m_Radius : Nat
  deriving DecidableEq, Repr

namespace VectorThresholdSegmentationLevelSetFunction

/-- Modelled from the spec: the base-class `SetAdvectionWeight` is a plain
store of the weight. -/
def SetAdvectionWeight (w : ℚ) (s : VectorThresholdSegmentationLevelSetFunction) :
    VectorThresholdSegmentationLevelSetFunction :=
  { s with m_AdvectionWeight := w }

/-- Modelled from the spec: the base-class `SetPropagationWeight` is a
plain store of the weight. -/
def SetPropagationWeight (w : ℚ) (s : VectorThresholdSegmentationLevelSetFunction) :
    VectorThresholdSegmentationLevelSetFunction :=
  { s with m_PropagationWeight := w }

/-- Modelled from the spec: the base-class `SetCurvatureWeight` is a plain
store of the weight. -/
def SetCurvatureWeight (w : ℚ) (s : VectorThresholdSegmentationLevelSetFunction) :
    VectorThresholdSegmentationLevelSetFunction :=
  { s with m_CurvatureWeight := w }

/-- `SetMean` of the excerpt: delegates to the membership function. -/
def SetMean (mean : List ℚ) (s : VectorThresholdSegmentationLevelSetFunction) :
    VectorThresholdSegmentationLevelSetFunction :=
  { s with m_Mahalanobis := s.m_Mahalanobis.SetMean mean }

/-- `SetCovariance` of the excerpt: delegates to the membership function. -/
def SetCovariance (cov : List (List ℚ))
    (s : VectorThresholdSegmentationLevelSetFunction) :
    VectorThresholdSegmentationLevelSetFunction :=
  { s with m_Mahalanobis := s.m_Mahalanobis.SetCovariance cov }

/-- `SetThreshold` of the excerpt: stores the value in `m_Threshold`. -/
def SetThreshold (thr : ℚ) (s : VectorThresholdSegmentationLevelSetFunction) :
    VectorThresholdSegmentationLevelSetFunction :=
  { s with m_Threshold := thr }

/-- `GetThreshold` of the excerpt: returns `m_Threshold`. -/
def GetThreshold (s : VectorThresholdSegmentationLevelSetFunction) : ℚ :=
  s.m_Threshold

/-- Modelled from the spec: `Superclass::Initialize(r)` configures only the
neighborhood-dependent state of the base evolution machinery (the radius is
passed through, opaque to this component). -/
def SuperclassInitialize (r : Nat)
    (s : VectorThresholdSegmentationLevelSetFunction) :
    VectorThresholdSegmentationLevelSetFunction :=
  { s with m_Radius := r }

/-- `Initialize(r)` of the excerpt: calls `Superclass::Initialize(r)`, then
sets the advection weight to zero, the propagation weight to
`-1.0 * One` and the curvature weight to `One`. -/
def Initialize (r : Nat) (s : VectorThresholdSegmentationLevelSetFunction) :
    VectorThresholdSegmentationLevelSetFunction :=
  SetCurvatureWeight 1
    (SetPropagationWeight (-1 * 1)
      (SetAdvectionWeight 0
        (SuperclassInitialize r s)))

/-- The constructor body of the excerpt, run on the state `base` left by
the base-class constructors (which are outside the excerpt, hence
arbitrary here): it builds a fresh membership function whose mean and
covariance are all-zero with both sizes taken from
`FeatureImageType::GetImageDimension()`, then sets the advection weight to
`0.0`, the propagation weight to `1.0` and the threshold to `1.8`.
It does not touch the curvature weight. -/
def construct (fi : FeatureImageTraits)
    (base : VectorThresholdSegmentationLevelSetFunction) :
    VectorThresholdSegmentationLevelSetFunction :=
  let mean := List.replicate fi.imageDimension (0 : ℚ)
  let covariance :=
    List.replicate fi.imageDimension (List.replicate fi.imageDimension (0 : ℚ))
  let s := { base with
    m_Mahalanobis :=
      (MahalanobisDistanceMembershipFunction.SetCovariance covariance
        (MahalanobisDistanceMembershipFunction.SetMean mean
          ⟨[], []⟩)) }
  SetThreshold 1.8 (SetPropagationWeight 1 (SetAdvectionWeight 0 s))

/-- Modelled from the spec: the pixel loop of `CalculateSpeedImage`
(implemented in the `.txx` file, not part of the excerpt).  It walks the
listed pixel indices, evaluates the Mahalanobis distance of each pixel's
feature vector, and overwrites that position of the speed image with
`Threshold - distance`; the first failing pixel aborts the whole sweep. -/
noncomputable def speedLoop (s : VectorThresholdSegmentationLevelSetFunction)
    (img : FeatureImage) :
    List Nat → (Nat → ℝ) → Except ItkError (Nat → ℝ)
  | [], speed => .ok speed
  | i :: is, speed =>
    match s.m_Mahalanobis.Evaluate (img.pixel i) with
    | .error e => .error e
    | .ok dist =>
      speedLoop s img is
        (Function.update speed i ((s.m_Threshold : ℝ) - dist))

/-- Modelled from the spec: `CalculateSpeedImage` sweeps every pixel of the
feature image's domain, writing `speed(p) = Threshold - distance(x)` into
the speed image (passed in as `speed`, returned updated). -/
noncomputable def CalculateSpeedImage
    (s : VectorThresholdSegmentationLevelSetFunction) (img : FeatureImage)
    (speed : Nat → ℝ) : Except ItkError (Nat → ℝ) :=
  speedLoop s img (List.range img.size) speed

end VectorThresholdSegmentationLevelSetFunction

end itk

namespace itk

/-- Getting an in-range element of a replicated list yields the replicated
value. -/
theorem getD_replicate {α : Type} (a d : α) (n i : Nat) (h : i < n) :
    (List.replicate n a).getD i d = a := by
  simp [List.getD_eq_getElem?_getD, List.getElem?_replicate, h]

namespace VectorThresholdSegmentationLevelSetFunction

/-- A base state (as left by the base-class constructors) used to probe
the constructor: its curvature weight is 5. -/
def baseCex : VectorThresholdSegmentationLevelSetFunction :=
  ⟨⟨[], []⟩, 0, 0, 0, 5, 0⟩

/-- Claim C2: after any call `Initialize(r)`, the advection weight is 0,
the propagation weight is -1 and the curvature weight is +1, regardless of
the prior state. -/
theorem initialize_sets_weights
    (s : VectorThresholdSegmentationLevelSetFunction) (r : Nat) :
    (Initialize r s).m_AdvectionWeight = 0 ∧
    (Initialize r s).m_PropagationWeight = -1 ∧
    (Initialize r s).m_CurvatureWeight = 1 := by
  simp [Initialize, SetCurvatureWeight, SetPropagationWeight,
    SetAdvectionWeight, SuperclassInitialize]

/-- Claim C3, counterexample: the constructor does not set the curvature
weight; on a base state whose curvature weight is 5 the constructed object
still has curvature weight 5, not +1.  This refutes the claim that the
curvature weight is set to +1 in the constructor path. -/
theorem constructor_curvature_weight_cex :
    (construct ⟨2, 2⟩ baseCex).m_CurvatureWeight = 5 ∧
    (construct ⟨2, 2⟩ baseCex).m_CurvatureWeight ≠ 1 := by
  refine ⟨?_, ?_⟩ <;>
    simp [construct, baseCex, SetThreshold, SetPropagationWeight,
      SetAdvectionWeight]

/-- Claim C3, amended: the constructor sets the propagation weight to +1
while `Initialize` sets it to -1; the curvature weight is set to +1 only by
`Initialize` — the constructor leaves the inherited curvature weight
unchanged. -/
theorem constructor_vs_initialize_weights (fi : FeatureImageTraits)
    (base s : VectorThresholdSegmentationLevelSetFunction) (r : Nat) :
    (construct fi base).m_PropagationWeight = 1 ∧
    (Initialize r s).m_PropagationWeight = -1 ∧
    (Initialize r s).m_CurvatureWeight = 1 ∧
    (construct fi base).m_CurvatureWeight = base.m_CurvatureWeight := by
  refine ⟨?_, ?_, ?_, ?_⟩ <;>
    simp [construct, Initialize, SetThreshold, SetPropagationWeight,
      SetAdvectionWeight, SetCurvatureWeight, SuperclassInitialize]

/-- Claim C4, counterexample: for a feature image of spatial dimension 2
whose pixels carry 3 channels, the constructed mean has length 2 (the
spatial dimension), not 3 (the channel count).  This refutes the claim that
the mean's dimension equals the channel count. -/
theorem constructor_mean_dimension_cex :
    (construct ⟨2, 3⟩ baseCex).m_Mahalanobis.m_Mean.length = 2 ∧
    (FeatureImageTraits.mk 2 3).channelCount = 3 ∧ (2 : Nat) ≠ 3 := by
  refine ⟨?_, rfl, by norm_num⟩
  simp [construct, baseCex, SetThreshold, SetPropagationWeight,
    SetAdvectionWeight, MahalanobisDistanceMembershipFunction.SetMean,
    MahalanobisDistanceMembershipFunction.SetCovariance]

/-- Claim C4, amended: at construction the mean vector is created all-zero
with its dimension equal to `FeatureImageType::GetImageDimension()`, the
feature image's spatial dimension (which equals the channel count only
when the two coincide). -/
theorem constructor_mean_all_zero_imageDimension (fi : FeatureImageTraits)
    (base : VectorThresholdSegmentationLevelSetFunction) :
    (construct fi base).m_Mahalanobis.m_Mean =
      List.replicate fi.imageDimension 0 := by
  simp [construct, SetThreshold, SetPropagationWeight, SetAdvectionWeight,
    MahalanobisDistanceMembershipFunction.SetMean,
    MahalanobisDistanceMembershipFunction.SetCovariance]

/-- Claim C5: a freshly constructed object has threshold 1.8. -/
theorem constructor_threshold_default (fi : FeatureImageTraits)
    (base : VectorThresholdSegmentationLevelSetFunction) :
    GetThreshold (construct fi base) = 1.8 := by
  simp [construct, GetThreshold, SetThreshold, SetPropagationWeight,
    SetAdvectionWeight]

/-- Claim C6: `SetThreshold` followed by `GetThreshold` returns exactly the
stored value, and `SetThreshold` only stores the value (no validation or
transformation, no other field is touched). -/
theorem setThreshold_getThreshold_roundtrip (t : ℚ)
    (s : VectorThresholdSegmentationLevelSetFunction) :
    GetThreshold (SetThreshold t s) = t ∧
    SetThreshold t s = { s with m_Threshold := t } := by
  exact ⟨rfl, rfl⟩

end VectorThresholdSegmentationLevelSetFunction

end itk

namespace itk

namespace MahalanobisDistanceMembershipFunction

/-- On dimension-consistent inputs with an invertible covariance,
`EvaluateSq` succeeds with the quadratic form of the inverse covariance. -/
theorem EvaluateSq_ok_of_invertible (f : MahalanobisDistanceMembershipFunction)
    (x : List ℚ) (hx : x.length = f.m_Mean.length)
    (hc : f.m_Covariance.length = f.m_Mean.length)
    (hr : ∀ row ∈ f.m_Covariance, row.length = f.m_Mean.length)
    (hdet : (toMatrix f.m_Mean.length f.m_Covariance).det ≠ 0) :
    f.EvaluateSq x =
      .ok (Matrix.dotProduct
        (fun i => toVec f.m_Mean.length x i - toVec f.m_Mean.length f.m_Mean i)
        (Matrix.mulVec
          ((toMatrix f.m_Mean.length f.m_Covariance).det⁻¹ •
            (toMatrix f.m_Mean.length f.m_Covariance).adjugate)
          (fun i => toVec f.m_Mean.length x i -
            toVec f.m_Mean.length f.m_Mean i))) := by
  simp only [EvaluateSq]
  rw [if_pos ⟨hx, hc, hr⟩, if_neg hdet]

/-- On dimension-consistent inputs with a singular covariance, `EvaluateSq`
fails with a numerical error. -/
theorem EvaluateSq_singular (f : MahalanobisDistanceMembershipFunction)
    (x : List ℚ) (hx : x.length = f.m_Mean.length)
    (hc : f.m_Covariance.length = f.m_Mean.length)
    (hr : ∀ row ∈ f.m_Covariance, row.length = f.m_Mean.length)
    (hdet : (toMatrix f.m_Mean.length f.m_Covariance).det = 0) :
    f.EvaluateSq x = .error .numericalError := by
  simp only [EvaluateSq]
  rw [if_pos ⟨hx, hc, hr⟩, if_pos hdet]

/-- On dimension-consistent inputs with a singular covariance, `Evaluate`
fails with a numerical error. -/
theorem Evaluate_singular (f : MahalanobisDistanceMembershipFunction)
    (x : List ℚ) (hx : x.length = f.m_Mean.length)
    (hc : f.m_Covariance.length = f.m_Mean.length)
    (hr : ∀ row ∈ f.m_Covariance, row.length = f.m_Mean.length)
    (hdet : (toMatrix f.m_Mean.length f.m_Covariance).det = 0) :
    f.Evaluate x = .error .numericalError := by
  simp [Evaluate, EvaluateSq_singular f x hx hc hr hdet, Except.map]

end MahalanobisDistanceMembershipFunction

namespace VectorThresholdSegmentationLevelSetFunction

/-- A successful `speedLoop` run wrote `Threshold - distance` at every
listed index and left every other position of the incoming speed image
untouched. -/
theorem speedLoop_ok_spec (s : VectorThresholdSegmentationLevelSetFunction)
    (img : FeatureImage) :
    ∀ (l : List Nat) (acc out : Nat → ℝ),
      speedLoop s img l acc = .ok out →
      (∀ j ∈ l, ∃ d, s.m_Mahalanobis.Evaluate (img.pixel j) = .ok d ∧
          out j = (s.m_Threshold : ℝ) - d) ∧
      (∀ j, j ∉ l → out j = acc j) := by
  intro l
  induction l with
  | nil =>
    intro acc out h
    simp only [speedLoop, Except.ok.injEq] at h
    subst h
    exact ⟨by simp, fun j _ => rfl⟩
  | cons i is ih =>
    intro acc out h
    rw [speedLoop] at h
    cases hev : s.m_Mahalanobis.Evaluate (img.pixel i) with
    | error e => rw [hev] at h; cases h
    | ok d =>
      rw [hev] at h
      obtain ⟨h1, h2⟩ := ih _ _ h
      refine ⟨?_, ?_⟩
      · intro j hj
        by_cases hjis : j ∈ is
        · exact h1 j hjis
        · have hji : j = i := by
            rcases List.mem_cons.mp hj with h' | h'
            · exact h'
            · exact absurd h' hjis
          subst hji
          refine ⟨d, hev, ?_⟩
          rw [h2 j hjis]
          simp [Function.update]
      · intro j hj
        have hji : j ≠ i := fun e => hj (e ▸ List.mem_cons_self i is)
        have hjis : j ∉ is := fun m => hj (List.mem_cons_of_mem _ m)
        rw [h2 j hjis]
        simp [Function.update, hji]

/-- Whether a `speedLoop` run succeeds does not depend on the incoming
speed image. -/
theorem speedLoop_ok_exists (s : VectorThresholdSegmentationLevelSetFunction)
    (img : FeatureImage) :
    ∀ (l : List Nat) (acc out acc' : Nat → ℝ),
      speedLoop s img l acc = .ok out →
      ∃ out', speedLoop s img l acc' = .ok out' := by
  intro l
  induction l with
  | nil => intro acc out acc' _; exact ⟨acc', rfl⟩
  | cons i is ih =>
    intro acc out acc' h
    rw [speedLoop] at h ⊢
    cases hev : s.m_Mahalanobis.Evaluate (img.pixel i) with
    | error e => rw [hev] at h; cases h
    | ok d =>
      rw [hev] at h
      exact ih _ _ _ h

/-- If the first pixel of a nonempty run fails, the whole run fails with
that error. -/
theorem speedLoop_error_of_all_error
    (s : VectorThresholdSegmentationLevelSetFunction) (img : FeatureImage)
    (l : List Nat) (acc : Nat → ℝ) (e : ItkError) (hne : l ≠ [])
    (hall : ∀ j ∈ l, s.m_Mahalanobis.Evaluate (img.pixel j) = .error e) :
    speedLoop s img l acc = .error e := by
  cases l with
  | nil => exact absurd rfl hne
  | cons i is =>
    rw [speedLoop, hall i (List.mem_cons_self i is)]

end VectorThresholdSegmentationLevelSetFunction

end itk

namespace itk

namespace MahalanobisDistanceMembershipFunction

/-- When the dimension check fails, `EvaluateSq` reports a configuration
error. -/
theorem EvaluateSq_config_error (f : MahalanobisDistanceMembershipFunction)
    (x : List ℚ)
    (h : ¬(x.length = f.m_Mean.length ∧
      f.m_Covariance.length = f.m_Mean.length ∧
      (∀ row ∈ f.m_Covariance, row.length = f.m_Mean.length))) :
    f.EvaluateSq x = .error .configurationError := by
  simp only [EvaluateSq]
  rw [if_neg h]

/-- Claim C8: on matching dimensions with an invertible covariance, the
distance evaluation succeeds with a non-negative value, which is exactly 0
when the feature vector equals the mean. -/
theorem evaluate_nonneg_and_zero_at_mean
    (f : MahalanobisDistanceMembershipFunction) (x : List ℚ)
    (hx : x.length = f.m_Mean.length)
    (hc : f.m_Covariance.length = f.m_Mean.length)
    (hr : ∀ row ∈ f.m_Covariance, row.length = f.m_Mean.length)
    (hdet : (toMatrix f.m_Mean.length f.m_Covariance).det ≠ 0) :
    ∃ d, f.Evaluate x = .ok d ∧ 0 ≤ d ∧ (x = f.m_Mean → d = 0) := by
  have hq := EvaluateSq_ok_of_invertible f x hx hc hr hdet
  unfold Evaluate
  rw [hq]
  refine ⟨_, rfl, Real.sqrt_nonneg _, ?_⟩
  intro hxm
  subst hxm
  have h0 : (fun i => toVec f.m_Mean.length f.m_Mean i -
      toVec f.m_Mean.length f.m_Mean i) =
      (0 : Fin f.m_Mean.length → ℚ) := by
    funext i
    simp
  rw [h0, Matrix.zero_dotProduct]
  simp

end MahalanobisDistanceMembershipFunction

namespace VectorThresholdSegmentationLevelSetFunction

/-- Claim C1: every in-domain position of a successfully computed speed
image holds `Threshold - MahalanobisDistance(FeatureImage[p])`. -/
theorem calculateSpeedImage_pixel_formula
    (s : VectorThresholdSegmentationLevelSetFunction) (img : FeatureImage)
    (prev out : Nat → ℝ) (h : CalculateSpeedImage s img prev = .ok out)
    (i : Nat) (hi : i < img.size) :
    ∃ d, s.m_Mahalanobis.Evaluate (img.pixel i) = .ok d ∧
      out i = (s.m_Threshold : ℝ) - d :=
  (speedLoop_ok_spec s img (List.range img.size) prev out h).1 i
    (List.mem_range.mpr hi)

/-- Claim C9: running `CalculateSpeedImage` again on its own output, with
unchanged state and feature image, reproduces the output bit for bit: the
sweep fully overwrites rather than accumulates. -/
theorem calculateSpeedImage_repeat_identical
    (s : VectorThresholdSegmentationLevelSetFunction) (img : FeatureImage)
    (prev out : Nat → ℝ) (h : CalculateSpeedImage s img prev = .ok out) :
    CalculateSpeedImage s img out = .ok out := by
  unfold CalculateSpeedImage at h ⊢
  obtain ⟨out2, h2⟩ :=
    speedLoop_ok_exists s img (List.range img.size) prev out out h
  obtain ⟨g1, g2⟩ := speedLoop_ok_spec s img (List.range img.size) prev out h
  obtain ⟨g1h, g2h⟩ := speedLoop_ok_spec s img (List.range img.size) out out2 h2
  have hout : out2 = out := by
    funext j
    by_cases hj : j ∈ List.range img.size
    · obtain ⟨d, hev, e2⟩ := g1h j hj
      obtain ⟨d', hev', e1⟩ := g1 j hj
      have hdd : d = d' := by
        rw [hev] at hev'
        exact Except.ok.inj hev'
      rw [e2, e1, hdd]
    · exact g2h j hj
  rw [hout] at h2
  exact h2

/-- Claim C7: with matching dimensions and a singular covariance, the
distance evaluation fails with a numerical error on every feature vector,
and the whole speed-image sweep over a nonempty domain fails with that
same numerical error (no value, NaN or clamped, is ever produced). -/
theorem singular_covariance_numerical_error
    (s : VectorThresholdSegmentationLevelSetFunction) (img : FeatureImage)
    (prev : Nat → ℝ)
    (hc : s.m_Mahalanobis.m_Covariance.length = s.m_Mahalanobis.m_Mean.length)
    (hr : ∀ row ∈ s.m_Mahalanobis.m_Covariance,
      row.length = s.m_Mahalanobis.m_Mean.length)
    (hdet : (toMatrix s.m_Mahalanobis.m_Mean.length
      s.m_Mahalanobis.m_Covariance).det = 0)
    (hpix : ∀ i, i < img.size →
      (img.pixel i).length = s.m_Mahalanobis.m_Mean.length)
    (hsz : 0 < img.size) :
    (∀ x, x.length = s.m_Mahalanobis.m_Mean.length →
      s.m_Mahalanobis.Evaluate x = .error .numericalError) ∧
    CalculateSpeedImage s img prev = .error .numericalError := by
  have hev : ∀ x, x.length = s.m_Mahalanobis.m_Mean.length →
      s.m_Mahalanobis.Evaluate x = .error .numericalError := fun x hx =>
    MahalanobisDistanceMembershipFunction.Evaluate_singular
      s.m_Mahalanobis x hx hc hr hdet
  refine ⟨hev, ?_⟩
  unfold CalculateSpeedImage
  apply speedLoop_error_of_all_error
  · simp only [ne_eq, List.range_eq_nil]
    omega
  · intro j hj
    exact hev (img.pixel j) (hpix j (List.mem_range.mp hj))

/-- Claim C10: a default-constructed object's membership function holds an
all-zero covariance of size `GetImageDimension()`, which is singular, so no
distance evaluation on it can succeed. -/
theorem default_constructed_covariance_singular (fi : FeatureImageTraits)
    (base : VectorThresholdSegmentationLevelSetFunction)
    (h : 0 < fi.imageDimension) :
    (construct fi base).m_Mahalanobis.m_Covariance =
      List.replicate fi.imageDimension (List.replicate fi.imageDimension 0) ∧
    (toMatrix fi.imageDimension
      (construct fi base).m_Mahalanobis.m_Covariance).det = 0 ∧
    ∀ x r, (construct fi base).m_Mahalanobis.Evaluate x ≠ .ok r := by
  have hmf : (construct fi base).m_Mahalanobis =
      ⟨List.replicate fi.imageDimension 0,
        List.replicate fi.imageDimension
          (List.replicate fi.imageDimension 0)⟩ := by
    simp [construct, SetThreshold, SetPropagationWeight, SetAdvectionWeight,
      MahalanobisDistanceMembershipFunction.SetMean,
      MahalanobisDistanceMembershipFunction.SetCovariance]
  have hzero : toMatrix fi.imageDimension
      (List.replicate fi.imageDimension
        (List.replicate fi.imageDimension (0 : ℚ))) = 0 := by
    funext i j
    rw [toMatrix, getD_replicate _ _ _ _ i.isLt, getD_replicate _ _ _ _ j.isLt]
    simp
  have hdet : (toMatrix fi.imageDimension
      (List.replicate fi.imageDimension
        (List.replicate fi.imageDimension (0 : ℚ)))).det = 0 := by
    rw [hzero]
    exact Matrix.det_zero ⟨⟨0, h⟩⟩
  refine ⟨by rw [hmf], by rw [hmf]; exact hdet, ?_⟩
  intro x r hok
  rw [hmf] at hok
  set f : MahalanobisDistanceMembershipFunction :=
    ⟨List.replicate fi.imageDimension 0,
      List.replicate fi.imageDimension
        (List.replicate fi.imageDimension 0)⟩ with hf
  have hlen : f.m_Mean.length = fi.imageDimension := by
    simp [hf]
  by_cases hcond : x.length = f.m_Mean.length ∧
      f.m_Covariance.length = f.m_Mean.length ∧
      (∀ row ∈ f.m_Covariance, row.length = f.m_Mean.length)
  · have := MahalanobisDistanceMembershipFunction.EvaluateSq_singular f x
      hcond.1 hcond.2.1 hcond.2.2 (by rw [hlen]; exact hdet)
    rw [MahalanobisDistanceMembershipFunction.Evaluate, this] at hok
    cases hok
  · have := MahalanobisDistanceMembershipFunction.EvaluateSq_config_error f x
      hcond
    rw [MahalanobisDistanceMembershipFunction.Evaluate, this] at hok
    cases hok

end VectorThresholdSegmentationLevelSetFunction

end itk

namespace itk

/-- A one-dimensional membership function with mean `[0]` and the identity
covariance `[[1]]`. -/
def fWit : MahalanobisDistanceMembershipFunction := ⟨[0], [[1]]⟩

/-- A one-dimensional membership function with mean `[0]` and the singular
covariance `[[0]]`. -/
def fSing : MahalanobisDistanceMembershipFunction := ⟨[0], [[0]]⟩

/-- The squared distance of `[0]` under `fWit` is 0. -/
theorem fWit_evaluateSq : fWit.EvaluateSq [0] = .ok 0 := by
  simp [fWit, MahalanobisDistanceMembershipFunction.EvaluateSq, toMatrix,
    toVec, Matrix.det_fin_one, Matrix.adjugate_fin_one]

/-- The distance of `[0]` under `fWit` is 0. -/
theorem fWit_evaluate : fWit.Evaluate [0] = .ok 0 := by
  rw [MahalanobisDistanceMembershipFunction.Evaluate, fWit_evaluateSq]
  show Except.ok (Real.sqrt ((0 : ℚ) : ℝ)) = Except.ok (0 : ℝ)
  norm_num

namespace VectorThresholdSegmentationLevelSetFunction

/-- A concrete function state over `fWit`, with threshold 1.8. -/
def sWit : VectorThresholdSegmentationLevelSetFunction :=
  ⟨fWit, 1.8, 0, 1, 1, 0⟩

/-- A one-pixel feature image whose single pixel is `[0]`. -/
def imgWit : FeatureImage := ⟨1, fun _ => [0]⟩

/-- The speed image produced by running `CalculateSpeedImage` on `sWit`
and `imgWit` from the all-zero speed image. -/
noncomputable def outWit : Nat → ℝ :=
  Function.update (fun _ => (0 : ℝ)) 0 (((1.8 : ℚ) : ℝ) - 0)

/-- The concrete sweep succeeds and produces `outWit`. -/
theorem calculateSpeedImage_wit :
    CalculateSpeedImage sWit imgWit (fun _ => 0) = .ok outWit := by
  unfold CalculateSpeedImage
  rw [show List.range imgWit.size = [0] from by decide]
  have hev : sWit.m_Mahalanobis.Evaluate (imgWit.pixel 0) = .ok 0 := by
    show fWit.Evaluate [0] = .ok 0
    exact fWit_evaluate
  simp only [speedLoop, hev]
  rfl

/-- Claim C1, witness: on the concrete one-pixel run, position 0 of the
output equals threshold minus the evaluated distance. -/
theorem calculateSpeedImage_pixel_formula_witness :
    ∃ d, sWit.m_Mahalanobis.Evaluate (imgWit.pixel 0) = .ok d ∧
      outWit 0 = (sWit.m_Threshold : ℝ) - d :=
  calculateSpeedImage_pixel_formula sWit imgWit (fun _ => 0) outWit
    calculateSpeedImage_wit 0 (by norm_num [imgWit])

/-- Claim C9, witness: re-running the concrete sweep on its own output
reproduces that output exactly. -/
theorem calculateSpeedImage_repeat_identical_witness :
    CalculateSpeedImage sWit imgWit outWit = .ok outWit :=
  calculateSpeedImage_repeat_identical sWit imgWit (fun _ => 0) outWit
    calculateSpeedImage_wit

/-- A concrete function state over the singular `fSing`. -/
def sSing : VectorThresholdSegmentationLevelSetFunction :=
  ⟨fSing, 1.8, 0, 1, 1, 0⟩

/-- Claim C7, witness: with the singular covariance `[[0]]`, the distance
evaluation and the whole sweep fail with a numerical error. -/
theorem singular_covariance_numerical_error_witness :
    (∀ x, x.length = sSing.m_Mahalanobis.m_Mean.length →
      sSing.m_Mahalanobis.Evaluate x = .error .numericalError) ∧
    CalculateSpeedImage sSing imgWit (fun _ => 0) =
      .error .numericalError :=
  singular_covariance_numerical_error sSing imgWit (fun _ => 0)
    (by simp [sSing, fSing])
    (by simp [sSing, fSing])
    (by simp [sSing, fSing, toMatrix, Matrix.det_fin_one])
    (fun i _ => by simp [sSing, fSing, imgWit])
    (by norm_num [imgWit])

/-- Claim C10, witness: for a feature image type of dimension 1, the
default-constructed covariance is `[[0]]`, its determinant is 0, and no
evaluation succeeds. -/
theorem default_constructed_covariance_singular_witness :
    (construct ⟨1, 1⟩ baseCex).m_Mahalanobis.m_Covariance =
      List.replicate 1 (List.replicate 1 0) ∧
    (toMatrix 1 (construct ⟨1, 1⟩ baseCex).m_Mahalanobis.m_Covariance).det
      = 0 ∧
    ∀ x r, (construct ⟨1, 1⟩ baseCex).m_Mahalanobis.Evaluate x ≠ .ok r :=
  default_constructed_covariance_singular ⟨1, 1⟩ baseCex (by norm_num)

end VectorThresholdSegmentationLevelSetFunction

namespace MahalanobisDistanceMembershipFunction

/-- Claim C8, witness: under `fWit` the evaluation of the mean itself
succeeds with a non-negative distance that is exactly 0. -/
theorem evaluate_nonneg_and_zero_at_mean_witness :
    ∃ d, fWit.Evaluate [0] = .ok d ∧ 0 ≤ d ∧ ([0] = fWit.m_Mean → d = 0) :=
  evaluate_nonneg_and_zero_at_mean fWit [0]
    (by simp [fWit])
    (by simp [fWit])
    (by simp [fWit])
    (by simp [fWit, toMatrix, Matrix.det_fin_one])

end MahalanobisDistanceMembershipFunction

end itk
